import Mathlib

/-!
Verification development for the `tug_of_ball` repository (a 2D tennis-like
game).  The Rust source is shallowly embedded: `f32` values are modelled as
exact rationals (`ℚ`), ECS systems become pure state-transition functions,
engine randomness becomes an explicit index argument, and Rust `unwrap`
panics become `Option.none` results.  Every definition mirrors the named
source function in `src/`.
-/

namespace TugOfBall

/-! ## Constants (src/ball.rs lines 30-38, src/score.rs lines 15-17) -/

def BALL_MIN_SPEED : ℚ := 350
def BALL_MAX_SPEED : ℚ := 2750
def BALL_GRAVITY : ℚ := -750
def BALL_MIN_DISTANCE : ℚ := 50
def BALL_MIN_HEIGHT : ℚ := 180
def BALL_MAX_HEIGHT : ℚ := 650
def TARGET_X_OFFSET : ℚ := 80
def GAME_SCORE_TARGET : Nat := 5
def NET_OFFSET_POINT : ℚ := 30
def NET_OFFSET_GAME : ℚ := 90

/-! ## Numeric helpers

`clampQ` models Rust `f32::clamp(lo, hi)`; `lerp` models the interpolation
crate's `a.lerp(&b, &t) = a + (b - a) * t`; `inverse_lerp` is
src/animation.rs lines 69-71. -/

def clampQ (x lo hi : ℚ) : ℚ := max lo (min x hi)

def lerp (a b t : ℚ) : ℚ := a + (b - a) * t

def inverse_lerp (a b t : ℚ) : ℚ := clampQ ((t - a) / (b - a)) 0 1

/-! ## Court regions (src/level.rs lines 71-142) -/

inductive CourtRegion
  | outOfBounds
  | topLeft
  | topRight
  | bottomLeft
  | bottomRight
deriving DecidableEq, Repr

namespace CourtRegion

def is_left (r : CourtRegion) : Bool :=
  r = CourtRegion.bottomLeft || r = CourtRegion.topLeft

def is_right (r : CourtRegion) : Bool :=
  r = CourtRegion.bottomRight || r = CourtRegion.topRight

def is_top (r : CourtRegion) : Bool :=
  r = CourtRegion.topLeft || r = CourtRegion.topRight

def is_bottom (r : CourtRegion) : Bool :=
  r = CourtRegion.bottomRight || r = CourtRegion.bottomLeft

def is_out_of_bounds (r : CourtRegion) : Bool :=
  r = CourtRegion.outOfBounds

def get_inverse : CourtRegion → Option CourtRegion
  | outOfBounds => none
  | topLeft => some bottomRight
  | topRight => some bottomLeft
  | bottomLeft => some topRight
  | bottomRight => some topLeft

def get_player_id (r : CourtRegion) : Nat :=
  if r.is_left then 1 else 2

/-- src/level.rs lines 133-141: indexes the fixed four-element array
`[TopLeft, BottomLeft, TopRight, BottomRight]`; the rng draw inside the
given range becomes the explicit index argument `i`. -/
def get_random_from_range (i : Fin 4) : CourtRegion :=
  match i with
  | 0 => topLeft
  | 1 => bottomLeft
  | 2 => topRight
  | 3 => bottomRight

/-- src/level.rs lines 121-123: a draw over the full range `0..=3`. -/
def get_random (i : Fin 4) : CourtRegion :=
  get_random_from_range i

/-- src/level.rs lines 125-127: a draw over the range `0..=1`. -/
def get_random_left (i : Fin 2) : CourtRegion :=
  get_random_from_range ⟨i.val, by omega⟩

/-- src/level.rs lines 129-131: a draw over the range `2..=3`. -/
def get_random_right (i : Fin 2) : CourtRegion :=
  get_random_from_range ⟨i.val + 2, by omega⟩

end CourtRegion

/-! ## Ball status (src/ball.rs lines 75-82) -/

inductive BallStatus
  | serve (region : CourtRegion) (fault_count : Nat) (player_id : Nat)
  | fault (fault_count : Nat) (player_id : Nat)
  | rally (player_id : Nat)
  | used
deriving DecidableEq, Repr

/-- src/ball.rs lines 84-88 (`BallBouncedEvt`); the entity handle is
dropped, the payload fields are kept. -/
structure BallBouncedEvt where
  bounce_count : Nat
  side : ℚ
deriving DecidableEq, Repr

/-! ## Ball movement state

The mutable state touched by `move_ball` (src/ball.rs lines 112-205):
the `Ball` component (`dir`, `speed`, `region`, `prev_pos`), the ball
transform (`pos_x`, `pos_y`), the attached `BallBounce` component
(`bounce_count`, `bounce_height`, `bounce_target_height`,
`bounce_gravity_mult`), the bounce transform's vertical offset
(`bounce_y`), and the `BallStatus`. -/
structure MoveState where
  dir : ℚ × ℚ
  speed : ℚ
  region : CourtRegion
  prev_pos_x : ℚ
  pos_x : ℚ
  pos_y : ℚ
  bounce_count : Nat
  bounce_height : ℚ
  bounce_target_height : ℚ
  bounce_gravity_mult : ℚ
  bounce_y : ℚ
  status : BallStatus
deriving DecidableEq, Repr

/-- src/ball.rs lines 161-163: the touchdown shrink of `target_height`,
floored at `BALL_MIN_HEIGHT`.  `speed` is the ball speed before the 0.8
decay is applied, exactly as in the source. -/
def touchdown_target_height (target speed : ℚ) : ℚ :=
  max (target * 1 - (0.25 * inverse_lerp BALL_MAX_SPEED BALL_MIN_SPEED speed))
    BALL_MIN_HEIGHT

/-- The serve evaluation on a touchdown (src/ball.rs lines 169-180).
`none` models the panic of `region.get_inverse().unwrap()` at line 171;
any non-serve status passes through unchanged. -/
def serve_eval (status : BallStatus) (ball_region : CourtRegion) :
    Option BallStatus :=
  match status with
  | BallStatus.serve region fault_count player_id =>
    match region.get_inverse with
    | none => none
    | some inv =>
      if ball_region ≠ inv then
        some (BallStatus.fault (fault_count + 1) player_id)
      else
        some (BallStatus.rally player_id)
  | st => some st

/-- One tick of `move_ball` (src/ball.rs lines 112-205) for a single ball.
`none` models the panic of `region.get_inverse().unwrap()` at line 171.
The Rust check `ball.dir.length() < 0.025` is encoded squared (the two are
equivalent since the length is non-negative).  The second
`ball.dir == Vec2::ZERO` check at line 150 is kept in place even though
`dir` cannot have changed since the first check. -/
def move_ball (s : MoveState) (net_current_offset dt : ℚ) :
    Option (MoveState × Option BallBouncedEvt) :=
  if s.dir = (0, 0) then some (s, none)
  else if s.dir.1 ^ 2 + s.dir.2 ^ 2 < (0.025 : ℚ) ^ 2 then
    some ({ s with dir := (0, 0) }, none)
  else
    let pos_x := s.pos_x + s.dir.1 * s.speed * dt
    let pos_y := s.pos_y + s.dir.2 * s.speed * dt
    let net_x := net_current_offset
    let ball_x := pos_x
    let ball_prev_x := s.prev_pos_x
    let count0 :=
      if (ball_prev_x < net_x ∧ ball_x > net_x) ∨
          (ball_prev_x > net_x ∧ ball_x < net_x) then 0 else s.bounce_count
    if s.dir = (0, 0) then
      some ({ s with pos_x := pos_x, pos_y := pos_y, prev_pos_x := pos_x,
                     bounce_count := count0 }, none)
    else
      let bounce_y := s.bounce_y + s.bounce_height * dt
      let bounce_height :=
        s.bounce_height + BALL_GRAVITY * s.bounce_gravity_mult * dt
      if bounce_y ≤ 0 then
        let count := count0 + 1
        let target := touchdown_target_height s.bounce_target_height s.speed
        let speed := s.speed * 0.8
        match serve_eval s.status s.region with
        | none => none
        | some st =>
          some ({ s with pos_x := pos_x, pos_y := pos_y, prev_pos_x := pos_x,
                         bounce_count := count, bounce_y := 0,
                         bounce_target_height := target,
                         bounce_height := target, speed := speed,
                         status := st },
                some { bounce_count := count,
                       side := if pos_x < net_current_offset then -1 else 1 })
      else
        some ({ s with pos_x := pos_x, pos_y := pos_y, prev_pos_x := pos_x,
                       bounce_count := count0, bounce_y := bounce_y,
                       bounce_height := bounce_height }, none)

/-- The region-transition update of `handle_regions`
(src/ball.rs lines 362-392): whenever the collision events of the tick
resolve to a newly occupied region `r` (the entity/event plumbing of
lines 323-360 is summarised by the `Option` argument), a left/right flip
resets the bounce count and the ball's region is overwritten with `r`. -/
def handle_regions_step (region_hit : Option CourtRegion)
    (ball_region : CourtRegion) (bounce_count : Nat) : CourtRegion × Nat :=
  match region_hit with
  | none => (ball_region, bounce_count)
  | some r =>
    if (ball_region.is_left && r.is_right) || (ball_region.is_right && r.is_left)
    then (r, 0)
    else (r, bounce_count)

/-! ## Score ledger (src/score.rs) -/

structure PlayerScore where
  points : Nat
  games : Nat
deriving DecidableEq, Repr

structure Score where
  left_player : PlayerScore
  right_player : PlayerScore
  left_has_won : Option Bool
deriving DecidableEq, Repr

inductive ScoreChangeType
  | point
  | game
deriving DecidableEq, Repr

structure ScoreChangedEvt where
  left_side_scored : Bool
  score_type : ScoreChangeType
deriving DecidableEq, Repr

structure GameOverEvt where
  left_has_won : Bool
deriving DecidableEq, Repr

/-- Result of `add_point_to_score`: the updated score, the events pushed to
the two event writers, and the returned `swap_serve` flag. -/
structure AddPointResult where
  score : Score
  events : List ScoreChangedEvt
  game_over : Option GameOverEvt
  swap_serve : Bool
deriving DecidableEq, Repr

/-- Writes the scoring/other `PlayerScore` pair back into the `Score`
according to which side scored (the `if add_to_left_player` borrow split at
src/score.rs lines 163-167). -/
def Score.write_sides (score : Score) (add_to_left_player : Bool)
    (scoring other : PlayerScore) : Score :=
  if add_to_left_player then
    { score with left_player := scoring, right_player := other }
  else
    { score with right_player := scoring, left_player := other }

/-- src/score.rs lines 157-212 (`add_point_to_score`), without the `debug`
cargo feature (which replaces `required_points` by 100). -/
def add_point_to_score (score : Score) (add_to_left_player : Bool) :
    AddPointResult :=
  let scoring :=
    if add_to_left_player then score.left_player else score.right_player
  let other :=
    if add_to_left_player then score.right_player else score.left_player
  let scoring := { scoring with points := scoring.points + 1 }
  let required_points := max (other.points + 2) 4
  if scoring.points ≥ required_points then
    let scoring := { scoring with games := scoring.games + 1, points := 0 }
    let other := { other with points := 0 }
    let score2 := score.write_sides add_to_left_player scoring other
    let events := [ScoreChangedEvt.mk add_to_left_player ScoreChangeType.game]
    if scoring.games ≥ GAME_SCORE_TARGET then
      { score := score2, events := events,
        game_over := some ⟨add_to_left_player⟩, swap_serve := false }
    else
      { score := score2, events := events, game_over := none,
        swap_serve := true }
  else if scoring.points = other.points ∧ scoring.points > 3 then
    -- the "hacky ADV" clamp: both sides are pulled back to 3
    let scoring := { scoring with points := 3 }
    let other := { other with points := 3 }
    { score := score.write_sides add_to_left_player scoring other,
      events := [ScoreChangedEvt.mk add_to_left_player ScoreChangeType.point],
      game_over := none, swap_serve := false }
  else
    { score := score.write_sides add_to_left_player scoring other,
      events := [ScoreChangedEvt.mk add_to_left_player ScoreChangeType.point],
      game_over := none, swap_serve := false }

/-! ## Players (src/player.rs) -/

/-- src/player.rs line 131-133. -/
def is_left_player_id (id : Nat) : Bool := id = 1

structure Player where
  id : Nat
  side : ℚ
deriving DecidableEq, Repr

/-- The two players spawned in src/player.rs `setup` (lines 285-296 with
line 232): player 1 starts on the left with `initial_dir = +X`, hence
`side = -1`; player 2 mirrors to `side = +1`. -/
def players : List Player := [⟨1, -1⟩, ⟨2, 1⟩]

/-- `player_q.iter().filter(|p| p.side == ev.side).nth(0)` at
src/player.rs lines 748-751. -/
def find_player_by_side (side : ℚ) : Option Player :=
  (players.filter (fun p => p.side = side)).head?

/-! ## Bounce resolution (src/player.rs `on_ball_bounced`, lines 718-812) -/

/-- Result of one `on_ball_bounced` event iteration.  `point_award`
records the `add_point_to_score` call made, if any (`some b` means the
point went to the left player iff `b`); `spawned` records the
`spawn_ball` call: serve region, fault count and serving player id. -/
structure BounceStepResult where
  score : Score
  serving_region : CourtRegion
  point_award : Option Bool
  status : BallStatus
  spawned : Option (CourtRegion × Nat × Nat)
  swap_serve : Bool
deriving DecidableEq, Repr

/-- One `BallBouncedEvt` iteration of `on_ball_bounced`
(src/player.rs lines 729-811).  `none` models the `.unwrap()` panic at
line 752 (no player carries the event's side).  `swap_i` is the rng draw
of the `get_random_left/right` re-serve pick. -/
def on_ball_bounced_step (score : Score) (serving_region : CourtRegion)
    (status : BallStatus) (ball_region : CourtRegion)
    (ev_bounce_count : Nat) (ev_side : ℚ) (swap_i : Fin 2) :
    Option BounceStepResult :=
  let ball_res : Option (Option (Option Nat × Nat)) :=
    match status with
    | BallStatus.fault count player_id =>
      let limit := 1
      let losing_player := if count > limit then some player_id else none
      let fault_count := if count > limit then 0 else count
      some (some (losing_player, fault_count))
    | BallStatus.rally player_id =>
      let bounce_limit := 1
      if ball_region.is_out_of_bounds ∧ ev_bounce_count = 1 then
        some (some (some player_id, 0))
      else if ev_bounce_count > bounce_limit then
        match find_player_by_side ev_side with
        | none => none
        | some player => some (some (some player.id, 0))
      else
        some none
    | BallStatus.serve _ _ _ => some none
    | BallStatus.used => some none
  match ball_res with
  | none => none
  | some none =>
    some { score := score, serving_region := serving_region,
           point_award := none, status := status, spawned := none,
           swap_serve := false }
  | some (some (losing_player, fault_count)) =>
    let scored : Score × Option Bool × Bool :=
      match losing_player with
      | some losing =>
        let add_left := ! is_left_player_id losing
        let r := add_point_to_score score add_left
        (r.score, some add_left, r.swap_serve)
      | none => (score, none, false)
    let serving2 :=
      if scored.2.2 then
        if serving_region.is_left then CourtRegion.get_random_right swap_i
        else CourtRegion.get_random_left swap_i
      else serving_region
    some { score := scored.1, serving_region := serving2,
           point_award := scored.2.1, status := BallStatus.used,
           spawned := some (serving2, fault_count, serving2.get_player_id),
           swap_serve := scored.2.2 }

/-! ## Hit resolution (src/ball.rs `handle_collisions`, lines 208-310) -/

/-- The ball/bounce fields written by a resolved hit, plus the
intermediate `dist` of the distance solve (needed to state the apex
back-solve contract). -/
structure HitResult where
  dir : ℚ × ℚ
  speed : ℚ
  gravity_mult : ℚ
  dist : ℚ
  height : ℚ
  target_height : ℚ
  predicted_bounce_pos : ℚ × ℚ
  status : BallStatus
deriving DecidableEq, Repr

/-- The swing computation of `handle_collisions` (src/ball.rs lines
233-298), run once the proximity and cooldown guards have passed.
`aim_dir` stands for the already normalized `aim.dir.normalize()` and
`angle_cos` for `angle.cos()` of the rotation-arc angle at lines 242-245:
both come from trigonometric engine calls and are taken as inputs.
`strength` is the `Active(strength)` payload of the swing. -/
def resolve_hit (ball_speed bounce_height : ℚ) (status : BallStatus)
    (strength : ℚ) (aim_dir : ℚ × ℚ) (angle_cos : ℚ)
    (player_id : Nat) (player_is_left : Bool)
    (ball_x ball_y net_current_offset court_right : ℚ) : HitResult :=
  let dir := aim_dir
  let speed :=
    min (lerp BALL_MIN_SPEED BALL_MAX_SPEED strength + ball_speed * 0.125)
      BALL_MAX_SPEED
  let overall_strength := inverse_lerp BALL_MIN_SPEED BALL_MAX_SPEED speed
  let height_mult := min (inverse_lerp 0 BALL_MAX_HEIGHT bounce_height) 1
  let net_offset := lerp TARGET_X_OFFSET (TARGET_X_OFFSET / 2) height_mult
  let min_x :=
    if player_is_left then net_current_offset + net_offset
    else net_current_offset - net_offset
  let min_a := |min_x - ball_x|
  let min_dist := max (min_a / angle_cos) BALL_MIN_DISTANCE
  let net_t := inverse_lerp court_right 0 |ball_x - net_current_offset|
  let dist_t := clampQ (overall_strength - height_mult * 0.25 - net_t * 0.25) 0 1
  let dist := lerp min_dist (court_right * 2.25) dist_t
  let time := dist / speed
  let time_apex := time / 2
  let gravity_mult := inverse_lerp BALL_MIN_SPEED BALL_MAX_SPEED speed * 1 + 1
  let final_grav := BALL_GRAVITY * gravity_mult
  let height := clampQ (-final_grav * time_apex) BALL_MIN_HEIGHT BALL_MAX_HEIGHT
  let target_height := height
  let final_time := height / -final_grav
  let final_dist := final_time * speed * 2
  let predicted := (ball_x + dir.1 * final_dist, ball_y + dir.2 * final_dist)
  let status2 :=
    match status with
    | BallStatus.serve _ _ serving_id =>
      if serving_id ≠ player_id then BallStatus.rally player_id else status
    | BallStatus.rally _ => BallStatus.rally player_id
    | st => st
  { dir := dir, speed := speed, gravity_mult := gravity_mult, dist := dist,
    height := height, target_height := target_height,
    predicted_bounce_pos := predicted, status := status2 }

/-! ## Net offset controller (src/level.rs `handle_net_offset`, lines
339-407) -/

structure NetOffset where
  target : ℚ
  current_offset : ℚ
  reset_queued : Bool
deriving DecidableEq, Repr

/-- src/level.rs lines 42-48. -/
def NetOffset.reset (_net : NetOffset) : NetOffset :=
  { current_offset := 0, target := 0, reset_queued := false }

/-- The per-event offset accumulation at src/level.rs lines 352-363. -/
def net_target_offset (events : List ScoreChangedEvt) : ℚ :=
  events.foldl
    (fun acc ev =>
      let offset :=
        match ev.score_type with
        | ScoreChangeType.point => NET_OFFSET_POINT
        | ScoreChangeType.game => NET_OFFSET_GAME
      acc + (if ev.left_side_scored then offset else -offset))
    0

/-- Result of one `handle_net_offset` tick: the updated `NetOffset`
resource, the game-over event (if any), and the x position the cosmetic
net tween was (re)targeted at (`none` when no tween was started). -/
structure NetOffsetTickResult where
  net : NetOffset
  game_over : Option GameOverEvt
  tween_target_x : Option ℚ
deriving DecidableEq, Repr

/-- One tick of `handle_net_offset` (src/level.rs lines 339-407), given
the drained score events and the net transform's current (animated) x
position `net_transform_x`.  The region-collider respawn (lines 388-401)
is geometry plumbing and is not part of the returned state.  Note line
405: `current_offset` is assigned the net transform's x position on every
tick, after the tween toward the new target has merely been started. -/
def handle_net_offset (net : NetOffset) (net_transform_x : ℚ)
    (events : List ScoreChangedEvt) (win_treshold : ℚ) :
    NetOffsetTickResult :=
  let target_offset := net_target_offset events
  if target_offset ≠ 0 ∨ net.reset_queued then
    let net1 :=
      if net.reset_queued then net.reset
      else { net with target := net.target + target_offset }
    let game_over :=
      if |net1.target| > win_treshold then some ⟨net1.target > 0⟩ else none
    { net := { net1 with current_offset := net_transform_x },
      game_over := game_over, tween_target_x := some net1.target }
  else
    { net := { net with current_offset := net_transform_x },
      game_over := none, tween_target_x := none }

/-! ## Reachable serving regions -/

/-- Modelled from the spec: the construction of the `InitialRegion`
resource is absent from `src/` (only its declaration in src/level.rs line
54 and its consumers exist); per the spec, the initial serve region is a
randomized playable quadrant, i.e. a `CourtRegion::get_random()` draw. -/
def initial_region (i : Fin 4) : CourtRegion :=
  CourtRegion.get_random i

/-- The serve regions the `ServingRegion` resource can ever hold: the
initial region, and, after each serve swap (src/player.rs lines 794-800),
a random region of the opposite side. -/
inductive ReachableServing : CourtRegion → Prop
  | init (i : Fin 4) : ReachableServing (initial_region i)
  | swap (r : CourtRegion) (i : Fin 2) : ReachableServing r →
      ReachableServing
        (if r.is_left then CourtRegion.get_random_right i
         else CourtRegion.get_random_left i)

/-! ## Theorems -/

/-- C9: at 40-40 (both `points == 3`) the next point takes the scorer to
4 (AD) while the other side stays at 3; if the side at 4 then loses the
next point, both sides are clamped back to 3 by the "hacky ADV" rule. -/
theorem deuce_adv_clamp (s : Score) (b : Bool)
    (h1 : s.left_player.points = 3) (h2 : s.right_player.points = 3) :
    ((add_point_to_score s b).score.left_player.points,
        (add_point_to_score s b).score.right_player.points)
      = (if b then (4, 3) else (3, 4)) ∧
    (add_point_to_score (add_point_to_score s b).score (!b)).score.left_player.points
      = 3 ∧
    (add_point_to_score (add_point_to_score s b).score (!b)).score.right_player.points
      = 3 := by
  cases b <;>
    simp [add_point_to_score, Score.write_sides, h1, h2, GAME_SCORE_TARGET]

/-- Witness for `deuce_adv_clamp` at a concrete 40-40 score. -/
theorem deuce_adv_clamp_witness :
    ((add_point_to_score ⟨⟨3, 0⟩, ⟨3, 0⟩, none⟩ true).score.left_player.points,
        (add_point_to_score ⟨⟨3, 0⟩, ⟨3, 0⟩, none⟩ true).score.right_player.points)
      = (if true then (4, 3) else (3, 4)) ∧
    (add_point_to_score (add_point_to_score ⟨⟨3, 0⟩, ⟨3, 0⟩, none⟩ true).score
        (!true)).score.left_player.points = 3 ∧
    (add_point_to_score (add_point_to_score ⟨⟨3, 0⟩, ⟨3, 0⟩, none⟩ true).score
        (!true)).score.right_player.points = 3 :=
  deuce_adv_clamp ⟨⟨3, 0⟩, ⟨3, 0⟩, none⟩ true rfl rfl

/-- C8 (amended): after a score-change event, `NetOffset.target` is
accumulated immediately, but `current_offset` is assigned the net
transform's animated x position (src/level.rs line 405), so it follows
the cosmetic tween rather than jumping to the new target. -/
theorem net_offset_tick (net : NetOffset) (tx : ℚ)
    (events : List ScoreChangedEvt) (thr : ℚ)
    (hq : net.reset_queued = false) (hOff : net_target_offset events ≠ 0) :
    (handle_net_offset net tx events thr).net.target
        = net.target + net_target_offset events ∧
    (handle_net_offset net tx events thr).net.current_offset = tx ∧
    (handle_net_offset net tx events thr).tween_target_x
        = some (net.target + net_target_offset events) := by
  simp [handle_net_offset, hq, hOff]

/-- Witness for `net_offset_tick`: a single point for the left side. -/
theorem net_offset_tick_witness :
    (handle_net_offset ⟨0, 0, false⟩ 0 [⟨true, ScoreChangeType.point⟩] 325).net.target
        = 0 + net_target_offset [⟨true, ScoreChangeType.point⟩] ∧
    (handle_net_offset ⟨0, 0, false⟩ 0 [⟨true, ScoreChangeType.point⟩]
        325).net.current_offset = 0 ∧
    (handle_net_offset ⟨0, 0, false⟩ 0 [⟨true, ScoreChangeType.point⟩]
        325).tween_target_x
        = some (0 + net_target_offset [⟨true, ScoreChangeType.point⟩]) :=
  net_offset_tick ⟨0, 0, false⟩ 0 [⟨true, ScoreChangeType.point⟩] 325 rfl
    (by norm_num [net_target_offset, NET_OFFSET_POINT])

/-- C8 counterexample: in the tick that handles a left-side point, the
target becomes 30 but `current_offset` stays at the old animated position
0, so the logical offset does not equal the new target in that tick. -/
theorem net_offset_not_immediate :
    (handle_net_offset ⟨0, 0, false⟩ 0 [⟨true, ScoreChangeType.point⟩]
        325).net.target = 30 ∧
    (handle_net_offset ⟨0, 0, false⟩ 0 [⟨true, ScoreChangeType.point⟩]
        325).net.current_offset = 0 ∧
    (handle_net_offset ⟨0, 0, false⟩ 0 [⟨true, ScoreChangeType.point⟩]
        325).net.current_offset
      ≠ (handle_net_offset ⟨0, 0, false⟩ 0 [⟨true, ScoreChangeType.point⟩]
          325).net.target := by
  norm_num [handle_net_offset, net_target_offset, NET_OFFSET_POINT]

/-- C7: the post-hit speed is `lerp(BALL_MIN_SPEED, BALL_MAX_SPEED,
strength) + 0.125 * previous speed`, capped at `BALL_MAX_SPEED`, and for
`strength ∈ [0, 1]` and a non-negative previous speed it always lies in
`[BALL_MIN_SPEED, BALL_MAX_SPEED]`. -/
theorem hit_speed_clamp (ball_speed bounce_height : ℚ) (status : BallStatus)
    (strength : ℚ) (aim_dir : ℚ × ℚ) (angle_cos : ℚ)
    (player_id : Nat) (player_is_left : Bool)
    (ball_x ball_y net_current_offset court_right : ℚ)
    (h0 : 0 ≤ strength) (h1 : strength ≤ 1) (hsp : 0 ≤ ball_speed) :
    (resolve_hit ball_speed bounce_height status strength aim_dir angle_cos
        player_id player_is_left ball_x ball_y net_current_offset
        court_right).speed
      = min (lerp BALL_MIN_SPEED BALL_MAX_SPEED strength + ball_speed * 0.125)
          BALL_MAX_SPEED ∧
    BALL_MIN_SPEED ≤ (resolve_hit ball_speed bounce_height status strength
        aim_dir angle_cos player_id player_is_left ball_x ball_y
        net_current_offset court_right).speed ∧
    (resolve_hit ball_speed bounce_height status strength aim_dir angle_cos
        player_id player_is_left ball_x ball_y net_current_offset
        court_right).speed ≤ BALL_MAX_SPEED := by
  have hstep : strength ≤ 1 := h1
  refine ⟨rfl, ?_, ?_⟩
  · show BALL_MIN_SPEED ≤
      min (lerp BALL_MIN_SPEED BALL_MAX_SPEED strength + ball_speed * 0.125)
        BALL_MAX_SPEED
    rw [le_min_iff]
    constructor
    · have hs : 0 ≤ (BALL_MAX_SPEED - BALL_MIN_SPEED) * strength := by
        apply mul_nonneg _ h0
        norm_num [BALL_MAX_SPEED, BALL_MIN_SPEED]
      have hb : 0 ≤ ball_speed * 0.125 := by
        apply mul_nonneg hsp; norm_num
      simp only [lerp]
      linarith
    · norm_num [BALL_MIN_SPEED, BALL_MAX_SPEED]
  · exact min_le_right _ _

/-- Witness for `hit_speed_clamp` at a concrete half-strength hit. -/
theorem hit_speed_clamp_witness :
    (resolve_hit 100 0 BallStatus.used (1/2) (1, 0) 1 1 true 0 0 0
        650).speed
      = min (lerp BALL_MIN_SPEED BALL_MAX_SPEED (1/2) + 100 * 0.125)
          BALL_MAX_SPEED ∧
    BALL_MIN_SPEED ≤ (resolve_hit 100 0 BallStatus.used (1/2) (1, 0) 1 1 true
        0 0 0 650).speed ∧
    (resolve_hit 100 0 BallStatus.used (1/2) (1, 0) 1 1 true 0 0 0
        650).speed ≤ BALL_MAX_SPEED :=
  hit_speed_clamp 100 0 BallStatus.used (1/2) (1, 0) 1 1 true 0 0 0 650
    (by norm_num) (by norm_num) (by norm_num)

/-- C6: a resolved hit sets the new bounce height, and `target_height`
with it, to `(-BALL_GRAVITY * gravity_mult * time_apex)` clamped into
`[BALL_MIN_HEIGHT, BALL_MAX_HEIGHT]`, where `time_apex` is half the
solved flight time `dist / speed`. -/
theorem hit_apex_back_solve (ball_speed bounce_height : ℚ)
    (status : BallStatus) (strength : ℚ) (aim_dir : ℚ × ℚ) (angle_cos : ℚ)
    (player_id : Nat) (player_is_left : Bool)
    (ball_x ball_y net_current_offset court_right : ℚ) :
    (resolve_hit ball_speed bounce_height status strength aim_dir angle_cos
        player_id player_is_left ball_x ball_y net_current_offset
        court_right).height
      = clampQ
          (-BALL_GRAVITY
            * (resolve_hit ball_speed bounce_height status strength aim_dir
                angle_cos player_id player_is_left ball_x ball_y
                net_current_offset court_right).gravity_mult
            * ((resolve_hit ball_speed bounce_height status strength aim_dir
                angle_cos player_id player_is_left ball_x ball_y
                net_current_offset court_right).dist
              / (resolve_hit ball_speed bounce_height status strength aim_dir
                  angle_cos player_id player_is_left ball_x ball_y
                  net_current_offset court_right).speed / 2))
          BALL_MIN_HEIGHT BALL_MAX_HEIGHT ∧
    (resolve_hit ball_speed bounce_height status strength aim_dir angle_cos
        player_id player_is_left ball_x ball_y net_current_offset
        court_right).target_height
      = (resolve_hit ball_speed bounce_height status strength aim_dir
          angle_cos player_id player_is_left ball_x ball_y net_current_offset
          court_right).height := by
  constructor
  · simp only [resolve_hit]
    congr 1
    ring
  · rfl


theorem serve_eval_isSome (status : BallStatus) (reg : CourtRegion)
    (hsafe : ∀ r fc pid, status = BallStatus.serve r fc pid →
        r.get_inverse.isSome) :
    (serve_eval status reg).isSome := by
  cases status with
  | serve r fc pid =>
    have hs := hsafe r fc pid rfl
    cases hinv : r.get_inverse with
    | none => rw [hinv] at hs; simp at hs
    | some inv =>
      simp only [serve_eval, hinv]
      split <;> simp
  | fault fc pid => simp [serve_eval]
  | rally pid => simp [serve_eval]
  | used => simp [serve_eval]

/-- Characterises a `move_ball` tick on which the ball touches down. -/
theorem move_ball_touchdown (s : MoveState) (net dt : ℚ) (st : BallStatus)
    (hdir : s.dir ≠ (0, 0))
    (hsp : ¬ (s.dir.1 ^ 2 + s.dir.2 ^ 2 < (0.025 : ℚ) ^ 2))
    (htd : s.bounce_y + s.bounce_height * dt ≤ 0)
    (hse : serve_eval s.status s.region = some st) :
    move_ball s net dt = some
      ({ s with
          pos_x := s.pos_x + s.dir.1 * s.speed * dt,
          pos_y := s.pos_y + s.dir.2 * s.speed * dt,
          prev_pos_x := s.pos_x + s.dir.1 * s.speed * dt,
          bounce_count :=
            (if (s.prev_pos_x < net ∧ s.pos_x + s.dir.1 * s.speed * dt > net) ∨
                (s.prev_pos_x > net ∧ s.pos_x + s.dir.1 * s.speed * dt < net)
             then 0 else s.bounce_count) + 1,
          bounce_y := 0,
          bounce_target_height :=
            touchdown_target_height s.bounce_target_height s.speed,
          bounce_height :=
            touchdown_target_height s.bounce_target_height s.speed,
          speed := s.speed * 0.8,
          status := st },
        some { bounce_count :=
                 (if (s.prev_pos_x < net ∧ s.pos_x + s.dir.1 * s.speed * dt > net) ∨
                     (s.prev_pos_x > net ∧ s.pos_x + s.dir.1 * s.speed * dt < net)
                  then 0 else s.bounce_count) + 1,
               side := if s.pos_x + s.dir.1 * s.speed * dt < net then -1
                       else 1 }) := by
  rw [move_ball]
  rw [if_neg hdir, if_neg hsp, if_neg hdir, if_pos htd, hse]


theorem touchdown_target_height_mono (t sp1 sp2 : ℚ) (h : sp1 ≤ sp2) :
    touchdown_target_height t sp1 ≤ touchdown_target_height t sp2 := by
  unfold touchdown_target_height
  have hil : inverse_lerp BALL_MAX_SPEED BALL_MIN_SPEED sp2
      ≤ inverse_lerp BALL_MAX_SPEED BALL_MIN_SPEED sp1 := by
    unfold inverse_lerp clampQ BALL_MAX_SPEED BALL_MIN_SPEED
    apply max_le_max le_rfl
    apply min_le_min _ le_rfl
    have h2 : (sp2 - 2750) / ((350 : ℚ) - 2750) = (2750 - sp2) / 2400 := by
      ring
    have h3 : (sp1 - 2750) / ((350 : ℚ) - 2750) = (2750 - sp1) / 2400 := by
      ring
    rw [h2, h3]
    exact (div_le_div_iff_of_pos_right (by norm_num : (0:ℚ) < 2400)).mpr (by linarith)
  apply max_le_max _ le_rfl
  nlinarith [hil]

def c5_fast : MoveState :=
  { dir := (1, 0), speed := 2750, region := CourtRegion.topRight,
    prev_pos_x := 0, pos_x := 0, pos_y := 0, bounce_count := 0,
    bounce_height := -100, bounce_target_height := 650,
    bounce_gravity_mult := 1, bounce_y := 0, status := BallStatus.rally 1 }

def c5_slow : MoveState := { c5_fast with speed := 350 }

theorem c5_cex :
    (move_ball c5_fast 0 (1/50)).map (fun r => r.1.bounce_target_height)
      = some 650 ∧
    (move_ball c5_slow 0 (1/50)).map (fun r => r.1.bounce_target_height)
      = some (2599/4) ∧
    (2599/4 : ℚ) < 650 := by
  refine ⟨?_, ?_, by norm_num⟩ <;>
    norm_num [move_ball, serve_eval, c5_fast, c5_slow,
      touchdown_target_height, inverse_lerp, clampQ,
      BALL_MAX_SPEED, BALL_MIN_SPEED, BALL_MIN_HEIGHT, BALL_GRAVITY]


/-- C5 (amended): on a touchdown (no net crossing in the same tick) the
bounce offset is clamped to 0, the count is incremented by 1, the speed
decays by 0.8, and `target_height` shrinks by
`0.25 * inverse_lerp(BALL_MAX_SPEED, BALL_MIN_SPEED, speed)` floored at
`BALL_MIN_HEIGHT`; a higher current speed yields an at-least-as-tall
subsequent bounce, not a shallower one. -/
theorem touchdown_updates (s : MoveState) (net dt : ℚ)
    (hdir : s.dir ≠ (0, 0))
    (hsp : ¬ (s.dir.1 ^ 2 + s.dir.2 ^ 2 < (0.025 : ℚ) ^ 2))
    (hcross : ¬ ((s.prev_pos_x < net ∧ s.pos_x + s.dir.1 * s.speed * dt > net) ∨
        (s.prev_pos_x > net ∧ s.pos_x + s.dir.1 * s.speed * dt < net)))
    (htd : s.bounce_y + s.bounce_height * dt ≤ 0)
    (hsafe : ∀ r fc pid, s.status = BallStatus.serve r fc pid →
        r.get_inverse.isSome) :
    ∃ s2 ev, move_ball s net dt = some (s2, some ev) ∧
      s2.bounce_y = 0 ∧
      s2.bounce_count = s.bounce_count + 1 ∧
      s2.speed = s.speed * 0.8 ∧
      s2.bounce_target_height
        = max (s.bounce_target_height
            - 0.25 * inverse_lerp BALL_MAX_SPEED BALL_MIN_SPEED s.speed)
            BALL_MIN_HEIGHT ∧
      s2.bounce_height = s2.bounce_target_height ∧
      (∀ t sp1 sp2 : ℚ, sp1 ≤ sp2 →
        touchdown_target_height t sp1 ≤ touchdown_target_height t sp2) := by
  obtain ⟨st, hse⟩ :=
    Option.isSome_iff_exists.mp (serve_eval_isSome s.status s.region hsafe)
  refine ⟨_, _, move_ball_touchdown s net dt st hdir hsp htd hse,
    rfl, ?_, rfl, ?_, rfl, fun t sp1 sp2 h => touchdown_target_height_mono t sp1 sp2 h⟩
  · simp [if_neg hcross]
  · simp [touchdown_target_height, mul_one]

def c5_witness_state : MoveState :=
  { dir := (1, 0), speed := 100, region := CourtRegion.topRight,
    prev_pos_x := 0, pos_x := 0, pos_y := 0, bounce_count := 1,
    bounce_height := -100, bounce_target_height := 650,
    bounce_gravity_mult := 1, bounce_y := 0, status := BallStatus.rally 1 }

/-- Witness for `touchdown_updates` at a concrete touchdown tick. -/
theorem touchdown_updates_witness :
    ∃ s2 ev, move_ball c5_witness_state 0 (1/50) = some (s2, some ev) ∧
      s2.bounce_y = 0 ∧
      s2.bounce_count = c5_witness_state.bounce_count + 1 ∧
      s2.speed = c5_witness_state.speed * 0.8 ∧
      s2.bounce_target_height
        = max (c5_witness_state.bounce_target_height
            - 0.25 * inverse_lerp BALL_MAX_SPEED BALL_MIN_SPEED
                c5_witness_state.speed)
            BALL_MIN_HEIGHT ∧
      s2.bounce_height = s2.bounce_target_height ∧
      (∀ t sp1 sp2 : ℚ, sp1 ≤ sp2 →
        touchdown_target_height t sp1 ≤ touchdown_target_height t sp2) :=
  touchdown_updates c5_witness_state 0 (1/50)
    (by norm_num [c5_witness_state])
    (by norm_num [c5_witness_state])
    (by norm_num [c5_witness_state])
    (by norm_num [c5_witness_state])
    (by intro r fc pid h; simp [c5_witness_state] at h)



/-- Characterises a `move_ball` tick on which the ball stays airborne. -/
theorem move_ball_flight (s : MoveState) (net dt : ℚ)
    (hdir : s.dir ≠ (0, 0))
    (hsp : ¬ (s.dir.1 ^ 2 + s.dir.2 ^ 2 < (0.025 : ℚ) ^ 2))
    (htd : ¬ (s.bounce_y + s.bounce_height * dt ≤ 0)) :
    move_ball s net dt = some
      ({ s with
          pos_x := s.pos_x + s.dir.1 * s.speed * dt,
          pos_y := s.pos_y + s.dir.2 * s.speed * dt,
          prev_pos_x := s.pos_x + s.dir.1 * s.speed * dt,
          bounce_count :=
            if (s.prev_pos_x < net ∧ s.pos_x + s.dir.1 * s.speed * dt > net) ∨
                (s.prev_pos_x > net ∧ s.pos_x + s.dir.1 * s.speed * dt < net)
            then 0 else s.bounce_count,
          bounce_y := s.bounce_y + s.bounce_height * dt,
          bounce_height :=
            s.bounce_height + BALL_GRAVITY * s.bounce_gravity_mult * dt },
        none) := by
  rw [move_ball]
  rw [if_neg hdir, if_neg hsp, if_neg hdir, if_neg htd]

/-- C1: on a serve bounce with status `Serve(region, fault_count,
player_id)`, the status becomes `Rally(player_id)` iff the ball's current
region equals `region.get_inverse()`, and `Fault(fault_count + 1,
player_id)` otherwise. -/
theorem serve_bounce_legality (s : MoveState) (net dt : ℚ)
    (r : CourtRegion) (fc pid : Nat) (inv : CourtRegion)
    (hdir : s.dir ≠ (0, 0))
    (hsp : ¬ (s.dir.1 ^ 2 + s.dir.2 ^ 2 < (0.025 : ℚ) ^ 2))
    (htd : s.bounce_y + s.bounce_height * dt ≤ 0)
    (hstatus : s.status = BallStatus.serve r fc pid)
    (hinv : r.get_inverse = some inv) :
    ∃ s2 ev, move_ball s net dt = some (s2, some ev) ∧
      (s2.status = BallStatus.rally pid ↔ s.region = inv) ∧
      (s.region ≠ inv → s2.status = BallStatus.fault (fc + 1) pid) := by
  by_cases hreg : s.region = inv
  · have hse : serve_eval s.status s.region
        = some (BallStatus.rally pid) := by
      simp [serve_eval, hstatus, hinv, hreg]
    exact ⟨_, _, move_ball_touchdown s net dt _ hdir hsp htd hse,
      by simp [hreg], fun h => absurd hreg h⟩
  · have hse : serve_eval s.status s.region
        = some (BallStatus.fault (fc + 1) pid) := by
      simp [serve_eval, hstatus, hinv, hreg]
    exact ⟨_, _, move_ball_touchdown s net dt _ hdir hsp htd hse,
      by simp [hreg], fun _ => rfl⟩

def c1_state : MoveState :=
  { dir := (1, 0), speed := 100, region := CourtRegion.topRight,
    prev_pos_x := 1, pos_x := 1, pos_y := 0, bounce_count := 0,
    bounce_height := -100, bounce_target_height := 650,
    bounce_gravity_mult := 1, bounce_y := 0,
    status := BallStatus.serve CourtRegion.bottomLeft 0 1 }

/-- Witness for `serve_bounce_legality`: a serve from `BottomLeft`
touching down in `TopRight`. -/
theorem serve_bounce_legality_witness :
    ∃ s2 ev, move_ball c1_state 0 (1/50) = some (s2, some ev) ∧
      (s2.status = BallStatus.rally 1 ↔ c1_state.region = CourtRegion.topRight) ∧
      (c1_state.region ≠ CourtRegion.topRight →
        s2.status = BallStatus.fault (0 + 1) 1) :=
  serve_bounce_legality c1_state 0 (1/50) CourtRegion.bottomLeft 0 1
    CourtRegion.topRight
    (by norm_num [c1_state])
    (by norm_num [c1_state])
    (by norm_num [c1_state])
    rfl rfl


/-- C4 (amended): a tick whose movement straddles `net.current_offset`
resets the bounce count via the positional detector, so the count is 0
after the tick unless a touchdown occurs in the very same tick (then the
reset count is incremented to 1).  The region-transition detector of
`handle_regions` also resets the count on a left/right flip, and applying
either reset after the other is idempotent. -/
theorem net_cross_reset (s : MoveState) (net dt : ℚ)
    (hdir : s.dir ≠ (0, 0))
    (hsp : ¬ (s.dir.1 ^ 2 + s.dir.2 ^ 2 < (0.025 : ℚ) ^ 2))
    (hcross : (s.prev_pos_x < net ∧ s.pos_x + s.dir.1 * s.speed * dt > net) ∨
        (s.prev_pos_x > net ∧ s.pos_x + s.dir.1 * s.speed * dt < net))
    (hsafe : ∀ r fc pid, s.status = BallStatus.serve r fc pid →
        r.get_inverse.isSome) :
    (∃ s2 ev, move_ball s net dt = some (s2, ev) ∧
        s2.bounce_count
          = if s.bounce_y + s.bounce_height * dt ≤ 0 then 1 else 0) ∧
    (∀ (br r2 : CourtRegion) (c : Nat),
        ((br.is_left && r2.is_right) || (br.is_right && r2.is_left)) = true →
        (handle_regions_step (some r2) br c).2 = 0) ∧
    (∀ (x : Option CourtRegion) (br : CourtRegion),
        (handle_regions_step x br 0).2 = 0) := by
  refine ⟨?_, ?_, ?_⟩
  · by_cases htd : s.bounce_y + s.bounce_height * dt ≤ 0
    · obtain ⟨st, hse⟩ :=
        Option.isSome_iff_exists.mp (serve_eval_isSome s.status s.region hsafe)
      exact ⟨_, _, move_ball_touchdown s net dt st hdir hsp htd hse,
        by simp [if_pos hcross, if_pos htd]⟩
    · exact ⟨_, _, move_ball_flight s net dt hdir hsp htd,
        by simp [if_pos hcross, if_neg htd]⟩
  · intro br r2 c h
    simp [handle_regions_step, h]
  · intro x br
    cases x with
    | none => rfl
    | some r2 => simp only [handle_regions_step]; split <;> rfl

def c4_witness_state : MoveState :=
  { dir := (1, 0), speed := 100, region := CourtRegion.topLeft,
    prev_pos_x := -1, pos_x := -1, pos_y := 0, bounce_count := 5,
    bounce_height := 0, bounce_target_height := 650,
    bounce_gravity_mult := 1, bounce_y := 50, status := BallStatus.rally 1 }

/-- Witness for `net_cross_reset`: a fast crossing with the ball still
airborne, after which the count is 0. -/
theorem net_cross_reset_witness :
    (∃ s2 ev, move_ball c4_witness_state 0 (1/50) = some (s2, ev) ∧
        s2.bounce_count
          = if c4_witness_state.bounce_y
              + c4_witness_state.bounce_height * (1/50) ≤ 0 then 1 else 0) ∧
    (∀ (br r2 : CourtRegion) (c : Nat),
        ((br.is_left && r2.is_right) || (br.is_right && r2.is_left)) = true →
        (handle_regions_step (some r2) br c).2 = 0) ∧
    (∀ (x : Option CourtRegion) (br : CourtRegion),
        (handle_regions_step x br 0).2 = 0) :=
  net_cross_reset c4_witness_state 0 (1/50)
    (by norm_num [c4_witness_state])
    (by norm_num [c4_witness_state])
    (by norm_num [c4_witness_state])
    (by intro r fc pid h; simp [c4_witness_state] at h)

def c4_cex_state : MoveState :=
  { dir := (1, 0), speed := 100, region := CourtRegion.topRight,
    prev_pos_x := -1, pos_x := -1, pos_y := 0, bounce_count := 5,
    bounce_height := -100, bounce_target_height := 650,
    bounce_gravity_mult := 1, bounce_y := 1, status := BallStatus.rally 1 }

/-- C4 counterexample: a trajectory that crosses the net and touches down
in the same tick ends the tick with `bounce.count = 1`, not 0 — the
touchdown increment runs after the crossing reset. -/
theorem net_cross_reset_cex :
    ((c4_cex_state.prev_pos_x < 0 ∧
        c4_cex_state.pos_x
          + c4_cex_state.dir.1 * c4_cex_state.speed * (1/50) > 0) ∨
      (c4_cex_state.prev_pos_x > 0 ∧
        c4_cex_state.pos_x
          + c4_cex_state.dir.1 * c4_cex_state.speed * (1/50) < 0)) ∧
    (move_ball c4_cex_state 0 (1/50)).map (fun r => r.1.bounce_count)
      = some 1 ∧
    (move_ball c4_cex_state 0 (1/50)).map (fun r => r.1.bounce_count)
      ≠ some 0 := by
  refine ⟨by norm_num [c4_cex_state], ?_, ?_⟩ <;>
    norm_num [c4_cex_state, move_ball, serve_eval, touchdown_target_height,
      inverse_lerp, clampQ, BALL_MAX_SPEED, BALL_MIN_SPEED, BALL_MIN_HEIGHT,
      BALL_GRAVITY]



/-- C2: a bounce in status `Fault(count, player_id)` always resolves the
point attempt: past the fault limit of 1 the point goes to the serving
player's opponent and the replacement ball is spawned with fault count 0;
within the limit no point is awarded and the replacement ball carries the
fault count over. -/
theorem fault_bounce_resolution (score : Score) (serving : CourtRegion)
    (count pid : Nat) (ball_region : CourtRegion)
    (bc : Nat) (side : ℚ) (i : Fin 2) :
    ∃ res, on_ball_bounced_step score serving (BallStatus.fault count pid)
        ball_region bc side i = some res ∧
      res.point_award
        = (if count > 1 then some (! is_left_player_id pid) else none) ∧
      res.score
        = (if count > 1
           then (add_point_to_score score (! is_left_player_id pid)).score
           else score) ∧
      res.spawned
        = some (res.serving_region, (if count > 1 then 0 else count),
            res.serving_region.get_player_id) ∧
      res.status = BallStatus.used := by
  by_cases hc : count > 1 <;>
    simp [on_ball_bounced_step, hc]



theorem find_player_left : find_player_by_side (-1) = some ⟨1, -1⟩ := by
  norm_num [find_player_by_side, players, List.filter]

theorem find_player_right : find_player_by_side 1 = some ⟨2, 1⟩ := by
  norm_num [find_player_by_side, players, List.filter]

theorem rally_too_many_bounces (score : Score) (serving : CourtRegion)
    (pid : Nat) (reg : CourtRegion) (bc : Nat) (side : ℚ) (i : Fin 2)
    (p : Player) (hbc : bc > 1) (hfind : find_player_by_side side = some p) :
    ∃ res, on_ball_bounced_step score serving (BallStatus.rally pid) reg bc
        side i = some res ∧
      res.point_award = some (! is_left_player_id p.id) := by
  have hbc1 : bc ≠ 1 := by omega
  simp only [on_ball_bounced_step, hfind]
  rw [if_neg (by simp [hbc1]), if_pos hbc]
  exact ⟨_, rfl, rfl⟩

/-- C3: on a rally touchdown the emitted event's `side` is the sign of
`ball.x - net.current_offset` at the moment of the bounce (-1 left of the
net offset, +1 otherwise), and when the bounce count exceeds 1 the point
resolution charges the player whose `side` field matches that value,
awarding the point to that player's opponent. -/
theorem rally_double_bounce (s : MoveState) (net dt : ℚ) (pid : Nat)
    (score : Score) (serving : CourtRegion) (i : Fin 2)
    (hdir : s.dir ≠ (0, 0))
    (hsp : ¬ (s.dir.1 ^ 2 + s.dir.2 ^ 2 < (0.025 : ℚ) ^ 2))
    (htd : s.bounce_y + s.bounce_height * dt ≤ 0)
    (hstatus : s.status = BallStatus.rally pid) :
    ∃ s2 ev, move_ball s net dt = some (s2, some ev) ∧
      ev.side = (if s2.pos_x < net then -1 else 1) ∧
      s2.pos_x = s.pos_x + s.dir.1 * s.speed * dt ∧
      (ev.bounce_count > 1 →
        ∃ res p, find_player_by_side ev.side = some p ∧ p.side = ev.side ∧
          on_ball_bounced_step score serving s2.status s2.region
              ev.bounce_count ev.side i = some res ∧
          res.point_award = some (! is_left_player_id p.id)) := by
  have hse : serve_eval s.status s.region = some (BallStatus.rally pid) := by
    simp [serve_eval, hstatus]
  refine ⟨_, _, move_ball_touchdown s net dt _ hdir hsp htd hse, rfl, rfl, ?_⟩
  intro hbc
  dsimp only at hbc ⊢
  by_cases hside : s.pos_x + s.dir.1 * s.speed * dt < net
  · rw [if_pos hside]
    obtain ⟨res, hstep, haward⟩ :=
      rally_too_many_bounces score serving pid s.region _ (-1) i ⟨1, -1⟩ hbc
        find_player_left
    exact ⟨res, ⟨1, -1⟩, find_player_left, rfl, hstep, haward⟩
  · rw [if_neg hside]
    obtain ⟨res, hstep, haward⟩ :=
      rally_too_many_bounces score serving pid s.region _ 1 i ⟨2, 1⟩ hbc
        find_player_right
    exact ⟨res, ⟨2, 1⟩, find_player_right, rfl, hstep, haward⟩


def c3_state : MoveState :=
  { dir := (1, 0), speed := 100, region := CourtRegion.topRight,
    prev_pos_x := 5, pos_x := 5, pos_y := 0, bounce_count := 1,
    bounce_height := -100, bounce_target_height := 650,
    bounce_gravity_mult := 1, bounce_y := 0, status := BallStatus.rally 2 }

/-- Witness for `rally_double_bounce`: a second bounce on the right side. -/
theorem rally_double_bounce_witness :
    ∃ s2 ev, move_ball c3_state 0 (1/50) = some (s2, some ev) ∧
      ev.side = (if s2.pos_x < 0 then -1 else 1) ∧
      s2.pos_x = c3_state.pos_x + c3_state.dir.1 * c3_state.speed * (1/50) ∧
      (ev.bounce_count > 1 →
        ∃ res p, find_player_by_side ev.side = some p ∧ p.side = ev.side ∧
          on_ball_bounced_step ⟨⟨0, 0⟩, ⟨0, 0⟩, none⟩ CourtRegion.topLeft
              s2.status s2.region ev.bounce_count ev.side 0 = some res ∧
          res.point_award = some (! is_left_player_id p.id)) :=
  rally_double_bounce c3_state 0 (1/50) 2 ⟨⟨0, 0⟩, ⟨0, 0⟩, none⟩
    CourtRegion.topLeft 0
    (by norm_num [c3_state])
    (by norm_num [c3_state])
    (by norm_num [c3_state])
    rfl



theorem get_random_from_range_has_inverse (j : Fin 4) :
    (CourtRegion.get_random_from_range j).get_inverse.isSome := by
  fin_cases j <;> rfl

theorem reachable_serving_has_inverse (r : CourtRegion)
    (h : ReachableServing r) : r.get_inverse.isSome := by
  induction h with
  | init i => exact get_random_from_range_has_inverse _
  | swap r2 i hr ih =>
    by_cases hl : r2.is_left
    · simp only [hl, if_true]
      exact get_random_from_range_has_inverse _
    · simp only [hl, Bool.false_eq_true, if_false]
      exact get_random_from_range_has_inverse _

theorem step_serving_region (score : Score) (serving : CourtRegion)
    (status : BallStatus) (ball_region : CourtRegion) (bc : Nat) (side : ℚ)
    (i : Fin 2) (res : BounceStepResult)
    (hstep : on_ball_bounced_step score serving status ball_region bc side i
        = some res) :
    (res.serving_region = serving ∨
      res.serving_region
        = (if serving.is_left then CourtRegion.get_random_right i
           else CourtRegion.get_random_left i)) ∧
    (∀ reg fc p, res.spawned = some (reg, fc, p) → reg = res.serving_region) := by
  cases status with
  | serve r fc pid =>
    simp only [on_ball_bounced_step] at hstep
    obtain rfl := Option.some.inj hstep
    exact ⟨Or.inl rfl, by intro reg fc2 p h; cases h⟩
  | used =>
    simp only [on_ball_bounced_step] at hstep
    obtain rfl := Option.some.inj hstep
    exact ⟨Or.inl rfl, by intro reg fc2 p h; cases h⟩
  | fault count pid =>
    simp only [on_ball_bounced_step] at hstep
    by_cases hc : count > 1
    · simp only [hc, if_true] at hstep
      obtain rfl := Option.some.inj hstep
      by_cases hsw : (add_point_to_score score (! is_left_player_id pid)).swap_serve
      · constructor
        · right; simp [hsw]
        · intro reg fc2 p h
          exact (congrArg Prod.fst (Option.some.inj h)).symm
      · constructor
        · left; simp [hsw]
        · intro reg fc2 p h
          exact (congrArg Prod.fst (Option.some.inj h)).symm
    · simp only [hc, if_false] at hstep
      obtain rfl := Option.some.inj hstep
      constructor
      · left; simp
      · intro reg fc2 p h
        exact (congrArg Prod.fst (Option.some.inj h)).symm
  | rally pid =>
    simp only [on_ball_bounced_step] at hstep
    by_cases h1 : ball_region.is_out_of_bounds ∧ bc = 1
    · simp only [h1, if_true] at hstep
      obtain rfl := Option.some.inj hstep
      by_cases hsw : (add_point_to_score score (! is_left_player_id pid)).swap_serve
      · constructor
        · right; simp [hsw]
        · intro reg fc2 p h
          exact (congrArg Prod.fst (Option.some.inj h)).symm
      · constructor
        · left; simp [hsw]
        · intro reg fc2 p h
          exact (congrArg Prod.fst (Option.some.inj h)).symm
    · simp only [h1, if_false] at hstep
      by_cases h2 : bc > 1
      · simp only [h2, if_true] at hstep
        cases hfind : find_player_by_side side with
        | none => rw [hfind] at hstep; cases hstep
        | some p =>
          rw [hfind] at hstep
          obtain rfl := Option.some.inj hstep
          by_cases hsw : (add_point_to_score score (! is_left_player_id p.id)).swap_serve
          · constructor
            · right; simp [hsw]
            · intro reg fc2 q h
              exact (congrArg Prod.fst (Option.some.inj h)).symm
          · constructor
            · left; simp [hsw]
            · intro reg fc2 q h
              exact (congrArg Prod.fst (Option.some.inj h)).symm
      · simp only [h2, if_false] at hstep
        obtain rfl := Option.some.inj hstep
        exact ⟨Or.inl rfl, by intro reg fc2 p h; cases h⟩


/-- C10: the serve-bounce unwrap of `region.get_inverse()` never panics:
the initial serve region (spec-modelled random playable quadrant) and
every re-serve region drawn by `on_ball_bounced` have an inverse (are
never `OutOfBounds`), the bounce step only re-serves from such regions
(and spawns the ball exactly in the serving region), and `move_ball`
returns a result (models: does not panic) whenever the serve status
carries a reachable serving region. -/
theorem serve_unwrap_safety :
    (∀ i : Fin 4, (initial_region i).get_inverse.isSome) ∧
    (∀ r, ReachableServing r → r.get_inverse.isSome) ∧
    (∀ (score : Score) (serving : CourtRegion) (status : BallStatus)
        (ball_region : CourtRegion) (bc : Nat) (side : ℚ) (i : Fin 2)
        (res : BounceStepResult),
        ReachableServing serving →
        on_ball_bounced_step score serving status ball_region bc side i
          = some res →
        ReachableServing res.serving_region ∧
        (∀ reg fc p, res.spawned = some (reg, fc, p) →
          reg = res.serving_region)) ∧
    (∀ (s : MoveState) (net dt : ℚ) (r : CourtRegion) (fc pid : Nat),
        s.status = BallStatus.serve r fc pid → ReachableServing r →
        (move_ball s net dt).isSome) := by
  refine ⟨?_, reachable_serving_has_inverse, ?_, ?_⟩
  · intro i
    exact get_random_from_range_has_inverse i
  · intro score serving status ball_region bc side i res hserv hstep
    obtain ⟨hcase, hspawn⟩ :=
      step_serving_region score serving status ball_region bc side i res hstep
    refine ⟨?_, hspawn⟩
    cases hcase with
    | inl h => rw [h]; exact hserv
    | inr h => rw [h]; exact ReachableServing.swap serving i hserv
  · intro s net dt r fc pid hstatus hr
    have hsafe : ∀ r2 fc2 pid2, s.status = BallStatus.serve r2 fc2 pid2 →
        r2.get_inverse.isSome := by
      intro r2 fc2 pid2 h
      rw [hstatus] at h
      injection h with e1 e2 e3
      subst e1
      exact reachable_serving_has_inverse r hr
    by_cases h1 : s.dir = (0, 0)
    · rw [move_ball, if_pos h1]; rfl
    by_cases h2 : s.dir.1 ^ 2 + s.dir.2 ^ 2 < (0.025 : ℚ) ^ 2
    · rw [move_ball, if_neg h1, if_pos h2]; rfl
    by_cases h3 : s.bounce_y + s.bounce_height * dt ≤ 0
    · obtain ⟨st, hse⟩ :=
        Option.isSome_iff_exists.mp (serve_eval_isSome s.status s.region hsafe)
      rw [move_ball_touchdown s net dt st h1 h2 h3 hse]
      rfl
    · rw [move_ball_flight s net dt h1 h2 h3]
      rfl

def c10_state : MoveState :=
  { dir := (1, 0), speed := 100, region := CourtRegion.topRight,
    prev_pos_x := 1, pos_x := 1, pos_y := 0, bounce_count := 0,
    bounce_height := -100, bounce_target_height := 650,
    bounce_gravity_mult := 1, bounce_y := 0,
    status := BallStatus.serve CourtRegion.topLeft 0 1 }

/-- Witness for `serve_unwrap_safety`: a serve from `TopLeft` (reachable
as an initial draw) is processed by `move_ball` without hitting the
panic branch. -/
theorem serve_unwrap_safety_witness :
    (move_ball c10_state 0 (1/50)).isSome :=
  serve_unwrap_safety.2.2.2 c10_state 0 (1/50) CourtRegion.topLeft 0 1 rfl
    (ReachableServing.init 0)


end TugOfBall
